import Mathlib

/-!
Verification development for the secure_fs_guard daemon.

Shallow embedding of the core daemon components:
  - daemon/auth.py        : mode state machine (AuthManager)
  - daemon/integrity_engine.py : block hashing, diff, entropy, classification,
                            ransomware detection (IntegrityEngine)
  - daemon/hash_storage.py : baseline store (HashStorage over sqlite)
  - daemon/recovery.py    : per-block and full restore (RecoveryEngine)

Machine conventions: wall-clock time is modelled as a rational number of
seconds; float-valued quantities (change percentages, entropy, thresholds)
are modelled as exact real numbers; byte values are Fin 256; file contents
are lists of bytes, a missing or unreadable file is Option.none; the SHA-256
block hash is an abstract parameter of the engine, since no claim depends on
the concrete digest function.
-/

namespace SecureFsGuard

/-- Byte value, as stored in a file. -/
abbrev Byte := Fin 256

/- ===================== daemon/auth.py ===================== -/

/-- SystemMode enum from daemon/auth.py. -/
inductive SystemMode where
  | MONITOR
  | INIT
  | UPDATE
  | EMERGENCY
deriving DecidableEq, Repr

/-- One session entry of AuthManager.active_sessions: the dict maps the
random hex token to user, creation time and expiry time.  Tokens are
modelled as natural numbers and supplied by the caller, standing for the
value produced by secrets.token_hex. -/
structure Session where
  token : Nat
  user : String
  created : Rat
  expires : Rat
deriving DecidableEq, Repr

/-- One record of AuthManager.mode_history. -/
structure ModeRecord where
  timestamp : Rat
  from_mode : SystemMode
  to_mode : SystemMode
  admin_user : String
  rec_timeout : Option Rat
  reason : String
deriving DecidableEq, Repr

/-- Mutable state of AuthManager (daemon/auth.py, constructor). -/
structure AuthState where
  current_mode : SystemMode
  mode_start_time : Option Rat
  mode_timeout : Option Rat
  active_sessions : List Session
  mode_history : List ModeRecord
  emergency_triggered : Bool
  emergency_reason : String
deriving DecidableEq, Repr

/-- Initial AuthManager state (AuthManager constructor). -/
def initAuthState : AuthState where
  current_mode := SystemMode.MONITOR
  mode_start_time := none
  mode_timeout := none
  active_sessions := []
  mode_history := []
  emergency_triggered := false
  emergency_reason := ""

/-- AuthManager record_mode_change: appends a record and keeps the last
1000 entries. -/
def record_mode_change (now : Rat) (s : AuthState) (new_mode : SystemMode)
    (admin_user : String) (timeout : Option Rat) (reason : String) : AuthState :=
  let r : ModeRecord :=
    { timestamp := now, from_mode := s.current_mode, to_mode := new_mode
      admin_user := admin_user, rec_timeout := timeout, reason := reason }
  let h := s.mode_history ++ [r]
  { s with mode_history := h.drop (h.length - 1000) }

/-- AuthManager verify_admin: requires effective uid 0 (process runs as
root) and the supplied user name in the allowed set. -/
def verify_admin (euid : Nat) (admin_user : String) : Bool :=
  if euid != 0 then false
  else admin_user == "root" || admin_user == "admin"

/-- AuthManager is_mode_expired: False when no timeout or start time is
set, otherwise true iff strictly more than mode_timeout seconds elapsed. -/
def is_mode_expired (now : Rat) (s : AuthState) : Bool :=
  match s.mode_timeout, s.mode_start_time with
  | some t, some st => decide (now - st > t)
  | _, _ => false

/-- AuthManager internal exit_update_mode: back to MONITOR, clears the
deadline and all active sessions. -/
def exit_update_mode_internal (now : Rat) (admin_user : String) (s : AuthState) :
    Bool × AuthState :=
  let s := record_mode_change now s SystemMode.MONITOR admin_user none ""
  (true, { s with current_mode := SystemMode.MONITOR, mode_start_time := none,
                  mode_timeout := none, active_sessions := [] })

/-- AuthManager get_current_mode: on every read, if the mode is UPDATE and
the deadline has elapsed, silently exit back to MONITOR before reporting. -/
def get_current_mode (now : Rat) (s : AuthState) : SystemMode × AuthState :=
  if s.current_mode = SystemMode.UPDATE && is_mode_expired now s then
    let s := (exit_update_mode_internal now "auto" s).2
    (s.current_mode, s)
  else
    (s.current_mode, s)

/-- AuthManager generate_session_token: stores the session under the fresh
token with expiry now + timeout.  The random token value is a parameter. -/
def generate_session_token (now : Rat) (token : Nat) (admin_user : String)
    (timeout : Rat) (s : AuthState) : AuthState :=
  { s with active_sessions := s.active_sessions ++
      [{ token := token, user := admin_user, created := now,
         expires := now + timeout }] }

/-- AuthManager enter_init_mode. -/
def enter_init_mode (now : Rat) (admin_user : String) (s : AuthState) :
    Bool × AuthState :=
  if s.current_mode ≠ SystemMode.MONITOR then (false, s)
  else
    let s := record_mode_change now s SystemMode.INIT admin_user none ""
    (true, { s with current_mode := SystemMode.INIT, mode_start_time := some now,
                    mode_timeout := none })

/-- AuthManager exit_init_mode. -/
def exit_init_mode (now : Rat) (admin_user : String) (s : AuthState) :
    Bool × AuthState :=
  if s.current_mode ≠ SystemMode.INIT then (false, s)
  else
    let s := record_mode_change now s SystemMode.MONITOR admin_user none ""
    (true, { s with current_mode := SystemMode.MONITOR, mode_start_time := none,
                    mode_timeout := none })

/-- AuthManager enter_update_mode.  Returns (success, issued token) and the
new state.  From EMERGENCY or INIT it fails; from UPDATE it extends the
deadline without a new token; from MONITOR it verifies the admin, issues a
session token and starts the deadline.  Note: the code never validates the
requested timeout value. -/
def enter_update_mode (euid : Nat) (now : Rat) (token : Nat)
    (admin_user : String) (timeout : Rat) (s : AuthState) :
    (Bool × Option Nat) × AuthState :=
  if s.current_mode = SystemMode.EMERGENCY then ((false, none), s)
  else if s.current_mode = SystemMode.INIT then ((false, none), s)
  else if s.current_mode = SystemMode.UPDATE then
    ((true, none), { s with mode_timeout := some timeout,
                            mode_start_time := some now })
  else if ¬ verify_admin euid admin_user then ((false, none), s)
  else
    let s := generate_session_token now token admin_user timeout s
    let s := record_mode_change now s SystemMode.UPDATE admin_user (some timeout) ""
    ((true, some token),
     { s with current_mode := SystemMode.UPDATE, mode_start_time := some now,
              mode_timeout := some timeout })

/-- AuthManager exit_update_mode (public wrapper). -/
def exit_update_mode (now : Rat) (admin_user : String) (s : AuthState) :
    Bool × AuthState :=
  if s.current_mode ≠ SystemMode.UPDATE then (false, s)
  else exit_update_mode_internal now admin_user s

/-- AuthManager enter_emergency_mode: unconditional, records the reason,
forcibly leaves UPDATE first, always succeeds. -/
def enter_emergency_mode (now : Rat) (reason : String) (s : AuthState) :
    Bool × AuthState :=
  let s := record_mode_change now s SystemMode.EMERGENCY "system" none reason
  let s := if s.current_mode = SystemMode.UPDATE then
             (exit_update_mode_internal now "system" s).2
           else s
  (true, { s with current_mode := SystemMode.EMERGENCY,
                  mode_start_time := some now, mode_timeout := none,
                  emergency_triggered := true, emergency_reason := reason })

/-- AuthManager exit_emergency_mode: only from EMERGENCY, only for a
verified admin. -/
def exit_emergency_mode (euid : Nat) (now : Rat) (admin_user : String)
    (s : AuthState) : Bool × AuthState :=
  if s.current_mode ≠ SystemMode.EMERGENCY then (false, s)
  else if ¬ verify_admin euid admin_user then (false, s)
  else
    let s := record_mode_change now s SystemMode.MONITOR admin_user none ""
    (true, { s with current_mode := SystemMode.MONITOR, mode_start_time := none,
                    mode_timeout := none, emergency_triggered := false,
                    emergency_reason := "" })

/- ===================== daemon/integrity_engine.py ===================== -/

/-- ChangeType enum from daemon/integrity_engine.py. -/
inductive ChangeType where
  | NO_CHANGE
  | ALLOWED_CHANGE
  | UNAUTHORIZED_CHANGE
  | SUSPICIOUS_CHANGE
  | CRITICAL_CHANGE
deriving DecidableEq, Repr

/-- Ransomware thresholds of IntegrityEngine (ransomware_thresholds dict). -/
structure Thresholds where
  files_count : Nat
  time_window : Rat
  block_change_percent : Real
  entropy_threshold : Real

/-- Default thresholds from the IntegrityEngine constructor. -/
noncomputable def defaultThresholds : Thresholds :=
  { files_count := 10, time_window := 10, block_change_percent := 70,
    entropy_threshold := 7.5 }

/-- ModificationEvent dataclass. -/
structure ModificationEvent where
  file_path : String
  timestamp : Rat
  blocks_changed : Nat
  blocks_total : Nat
  change_percent : Real
  entropy : Real

/-- IntegrityCheckResult dataclass. -/
structure IntegrityCheckResult where
  file_path : String
  change_type : ChangeType
  blocks_total : Nat
  blocks_changed : Nat
  change_percent : Real
  current_hashes : List Nat
  reference_hashes : List Nat
  changed_block_indices : List Nat
  entropy : Real

/-- Split a list into consecutive chunks of bs elements, the last chunk
possibly shorter; this is the read loop of compute_file_hashes.  For
bs = 0 the python read loop terminates at once with no blocks. -/
def chunksOf {α : Type} (bs : Nat) : List α → List (List α)
  | [] => []
  | a :: l =>
    if bs = 0 then []
    else (a :: l).take bs :: chunksOf bs ((a :: l).drop bs)
termination_by l => l.length
decreasing_by
  simp only [List.length_drop, List.length_cons]
  omega

/-- IntegrityEngine compute_file_hashes, for an existing regular file with
the given content: the ordered vector of block hashes and the file size.
The SHA-256 digest of one block is the abstract parameter hashB. -/
def compute_file_hashes (hashB : List Byte → Nat) (bs : Nat)
    (content : List Byte) : List Nat × Nat :=
  ((chunksOf bs content).map hashB, content.length)

/-- IntegrityEngine compare_hashes: indices of differing blocks among the
common prefix, plus all tail indices when the block counts differ, and the
changed percentage relative to the larger block count. -/
noncomputable def compare_hashes (current reference : List Nat) :
    List Nat × Real :=
  let max_blocks := max current.length reference.length
  let min_blocks := min current.length reference.length
  let changed :=
    (List.range min_blocks).filter (fun i => current.get? i ≠ reference.get? i)
      ++ (if current.length ≠ reference.length
          then List.range' min_blocks (max_blocks - min_blocks) else [])
  let change_percent : Real :=
    if max_blocks > 0 then (changed.length : Real) / (max_blocks : Real) * 100
    else 0
  (changed, change_percent)

/-- IntegrityEngine calculate_entropy: Shannon entropy, base 2, of the byte
frequencies of the first at most 1 MiB of the file; a missing (or
unreadable) file and an empty sample give 0.  The python loop sums
-p * log2 p over the bytes with positive count; since the summand vanishes
at count 0 (Real.logb 2 0 = 0), the sum here ranges over all 256 byte
values. -/
noncomputable def calculate_entropy (content : Option (List Byte)) : Real :=
  match content with
  | none => 0
  | some l =>
    let data := l.take 1048576
    if data.length = 0 then 0
    else ∑ b : Byte,
      -(((data.count b : Real) / (data.length : Real)) *
        Real.logb 2 ((data.count b : Real) / (data.length : Real)))

/-- Append to the modification_history deque (maxlen 1000): the oldest
events are dropped from the front once the length exceeds 1000. -/
def pushEvent (hist : List ModificationEvent) (e : ModificationEvent) :
    List ModificationEvent :=
  let l := hist ++ [e]
  l.drop (l.length - 1000)

open Classical in
/-- IntegrityEngine classify_change. -/
noncomputable def classify_change (th : Thresholds)
    (change_percent entropy : Real) : ChangeType :=
  if change_percent ≥ th.block_change_percent ∧ entropy ≥ th.entropy_threshold
  then ChangeType.CRITICAL_CHANGE
  else if change_percent ≥ th.block_change_percent ∨ entropy ≥ th.entropy_threshold
  then ChangeType.SUSPICIOUS_CHANGE
  else ChangeType.UNAUTHORIZED_CHANGE

/-- IntegrityEngine check_integrity.  content is the current bytes of the
file, none when the file is missing (the FileNotFoundError branch).
Returns the result together with the new modification history. -/
noncomputable def check_integrity (hashB : List Byte → Nat) (bs : Nat)
    (th : Thresholds) (path : String) (now : Rat)
    (content : Option (List Byte)) (reference_hashes : List Nat)
    (is_update_mode : Bool) (hist : List ModificationEvent) :
    IntegrityCheckResult × List ModificationEvent :=
  match content with
  | none =>
    ({ file_path := path, change_type := ChangeType.CRITICAL_CHANGE,
       blocks_total := 0, blocks_changed := 0, change_percent := 0,
       current_hashes := [], reference_hashes := reference_hashes,
       changed_block_indices := [], entropy := 0 }, hist)
  | some c =>
    let current_hashes := (compute_file_hashes hashB bs c).1
    let cmp := compare_hashes current_hashes reference_hashes
    let changed_indices := cmp.1
    let change_percent := cmp.2
    let blocks_total := current_hashes.length
    let blocks_changed := changed_indices.length
    if blocks_changed = 0 then
      ({ file_path := path, change_type := ChangeType.NO_CHANGE,
         blocks_total := blocks_total, blocks_changed := 0,
         change_percent := 0, current_hashes := current_hashes,
         reference_hashes := reference_hashes, changed_block_indices := [],
         entropy := 0 }, hist)
    else if is_update_mode then
      ({ file_path := path, change_type := ChangeType.ALLOWED_CHANGE,
         blocks_total := blocks_total, blocks_changed := blocks_changed,
         change_percent := change_percent, current_hashes := current_hashes,
         reference_hashes := reference_hashes,
         changed_block_indices := changed_indices, entropy := 0 }, hist)
    else
      let entropy := calculate_entropy (some c)
      let ev : ModificationEvent :=
        { file_path := path, timestamp := now, blocks_changed := blocks_changed,
          blocks_total := blocks_total, change_percent := change_percent,
          entropy := entropy }
      ({ file_path := path, change_type := classify_change th change_percent entropy,
         blocks_total := blocks_total, blocks_changed := blocks_changed,
         change_percent := change_percent, current_hashes := current_hashes,
         reference_hashes := reference_hashes,
         changed_block_indices := changed_indices, entropy := entropy },
       pushEvent hist ev)

open Classical in
/-- IntegrityEngine detect_ransomware_pattern: reports whether the recent
modification events look like a ransomware burst.  When files_count is
positive this is an exact model; for files_count = 0 with an empty window
the python code instead raises ZeroDivisionError on the mean. -/
noncomputable def detect_ransomware_pattern (th : Thresholds)
    (hist : List ModificationEvent) (now : Rat) (time_window : Option Rat) :
    Bool :=
  let window := time_window.getD th.time_window
  let recent := hist.filter (fun e => e.timestamp ≥ now - window)
  if recent.length < th.files_count then false
  else
    let files_count := recent.length
    let avg_change_percent : Real :=
      (recent.map ModificationEvent.change_percent).sum / (files_count : Real)
    let critical_changes :=
      (recent.filter (fun e => e.change_percent ≥ th.block_change_percent ∧
        e.entropy ≥ th.entropy_threshold)).length
    decide (files_count ≥ th.files_count) &&
      decide (avg_change_percent ≥ th.block_change_percent) &&
      decide ((critical_changes : Real) ≥ (files_count : Real) * 0.7)

/- ===================== daemon/hash_storage.py ===================== -/

/-- One row of the files table. -/
structure FileRow where
  id : Nat
  file_path : String
  file_size : Nat
  block_size : Nat
  blocks_count : Nat
  created_at : Rat
  updated_at : Rat
  is_trusted : Bool
  backup_path : Option String
deriving DecidableEq, Repr

/-- One row of the block_hashes table.  The autoincrement id of block rows
is never read by the code and is omitted; hash values are abstract. -/
structure BlockRow where
  file_id : Nat
  block_index : Nat
  hash_value : Nat
deriving DecidableEq, Repr

/-- State of the sqlite database behind HashStorage.  next_file_id is the
AUTOINCREMENT counter of the files table.  The schema declares
FOREIGN KEY (file_id) REFERENCES files(id) ON DELETE CASCADE, but the
connection never executes PRAGMA foreign_keys = ON, and sqlite leaves
foreign-key enforcement off by default, so deletes on files do not cascade
to block_hashes; the model reproduces the executed behaviour. -/
structure HashDB where
  next_file_id : Nat
  files : List FileRow
  blocks : List BlockRow
deriving DecidableEq, Repr

/-- Freshly initialised database (init_database): both tables empty. -/
def emptyDB : HashDB := { next_file_id := 1, files := [], blocks := [] }

/-- HashStorage get_file lookup of the files row by path (SELECT * FROM
files WHERE file_path = ?). -/
def find_file (db : HashDB) (path : String) : Option FileRow :=
  db.files.find? (fun r => r.file_path == path)

/-- Block-hash rows belonging to a given files row id. -/
def blocks_of (db : HashDB) (fid : Nat) : List BlockRow :=
  db.blocks.filter (fun b => b.file_id == fid)

/-- HashStorage add_file: INSERT OR REPLACE into files (REPLACE first
deletes any row with the same unique file_path, and the inserted row gets a
fresh autoincrement id); then DELETE FROM block_hashes WHERE
file_id = lastrowid (the fresh id, so block rows of a replaced row keep
their old id and survive); then insert the new block rows. -/
def add_file (now : Rat) (path : String) (file_size block_size : Nat)
    (block_hashes : List Nat) (backup_path : Option String) (db : HashDB) :
    Bool × HashDB :=
  let fid := db.next_file_id
  let row : FileRow :=
    { id := fid, file_path := path, file_size := file_size,
      block_size := block_size, blocks_count := block_hashes.length,
      created_at := now, updated_at := now, is_trusted := true,
      backup_path := backup_path }
  let files := db.files.filter (fun r => r.file_path != path) ++ [row]
  let blocks := db.blocks.filter (fun b => b.file_id != fid)
      ++ block_hashes.enum.map (fun p => { file_id := fid, block_index := p.1,
                                           hash_value := p.2 : BlockRow })
  (true, { next_file_id := fid + 1, files := files, blocks := blocks })

/-- HashStorage update_file: fails when no row exists for the path;
otherwise updates size, blocks_count, updated_at and backup_path in place
(created_at, is_trusted and block_size are untouched) and replaces the
block rows of that id. -/
def update_file (now : Rat) (path : String) (file_size : Nat)
    (block_hashes : List Nat) (backup_path : Option String) (db : HashDB) :
    Bool × HashDB :=
  match find_file db path with
  | none => (false, db)
  | some row =>
    let row2 : FileRow :=
      { row with file_size := file_size, blocks_count := block_hashes.length,
                 updated_at := now, backup_path := backup_path }
    let files := db.files.map (fun r => if r.id == row.id then row2 else r)
    let blocks := db.blocks.filter (fun b => b.file_id != row.id)
        ++ block_hashes.enum.map (fun p => { file_id := row.id,
                                             block_index := p.1,
                                             hash_value := p.2 : BlockRow })
    (true, { db with files := files, blocks := blocks })

/-- HashStorage remove_file: DELETE FROM files WHERE file_path = ?; returns
whether a row was deleted (rowcount > 0).  With foreign-key enforcement
left at its sqlite default (off), block_hashes rows are not touched. -/
def remove_file (path : String) (db : HashDB) : Bool × HashDB :=
  (db.files.any (fun r => r.file_path == path),
   { db with files := db.files.filter (fun r => r.file_path != path) })

/-- HashStorage set_trust_status. -/
def set_trust_status (path : String) (flag : Bool) (db : HashDB) :
    Bool × HashDB :=
  (db.files.any (fun r => r.file_path == path),
   { db with files := db.files.map (fun r =>
       if r.file_path == path then { r with is_trusted := flag } else r) })

/- ===================== daemon/recovery.py ===================== -/

/-- Write data into f starting at byte offset off, the posix pwrite
semantics of seek plus write: positions below off keep their bytes, a seek
past EOF first extends the file with zero bytes, positions at and beyond
off + data.length keep their old bytes. -/
def writeAt (f : List Byte) (off : Nat) (data : List Byte) : List Byte :=
  (f.take off ++ List.replicate (off - f.length) (0 : Byte)) ++ data
    ++ f.drop (off + data.length)

/-- Truncate or zero-extend a file to exactly n bytes (ftruncate). -/
def truncateTo (f : List Byte) (n : Nat) : List Byte :=
  f.take n ++ List.replicate (n - f.length) (0 : Byte)

/-- RecoveryEngine restore_from_backup: full copy of the backup over the
target.  Fails when the backup is missing; file locking and permission
handling are not modelled. -/
def restore_from_backup (target backup : Option (List Byte)) :
    Bool × Option (List Byte) :=
  match backup with
  | none => (false, target)
  | some b => (true, some b)

/-- Body of the per-index loop of restore_blocks: read one block from the
backup at index i; an empty read (offset at or past backup EOF) is
skipped, otherwise the block is written into the target at the same
offset and the restored counter is bumped. -/
def restore_block_step (bs : Nat) (b : List Byte) (acc : List Byte × Nat)
    (i : Nat) : List Byte × Nat :=
  let block_data := (b.drop (i * bs)).take bs
  if block_data.isEmpty then acc
  else (writeAt acc.1 (i * bs) block_data, acc.2 + 1)

/-- RecoveryEngine restore_blocks: fails when the backup is missing;
degrades to restore_from_backup when the target file does not exist;
otherwise copies each requested block (in ascending index order) from the
backup into the target and finally truncates the target to the backup
length.  Returns ((success, restored block count), new target content). -/
def restore_blocks (bs : Nat) (target backup : Option (List Byte))
    (block_indices : List Nat) : (Bool × Nat) × Option (List Byte) :=
  match backup with
  | none => ((false, 0), target)
  | some b =>
    match target with
    | none =>
      let r := restore_from_backup target backup
      ((r.1, 0), r.2)
    | some t =>
      let s := (block_indices.mergeSort (fun a c => decide (a ≤ c))).foldl
        (restore_block_step bs b) (t, 0)
      ((true, s.2), some (truncateTo s.1 b.length))

/- ===================== concrete sample inputs ===================== -/

/-- Sample thresholds for concrete instantiations: one file inside the
window suffices, the default percent and entropy thresholds. -/
noncomputable def sample_thresholds : Thresholds :=
  { files_count := 1, time_window := 10, block_change_percent := 70,
    entropy_threshold := 7.5 }

/-- Sample modification event: a fully changed single-block file with
maximal entropy. -/
noncomputable def sample_event : ModificationEvent :=
  { file_path := "f", timestamp := 0, blocks_changed := 1,
    blocks_total := 1, change_percent := 100, entropy := 8 }

/-- Sample block-hash function for concrete instantiations. -/
def sample_hash : List Byte → Nat := fun _ => 0

/- ===================== theorems: mode state machine ===================== -/

/-- Reading the mode while it is UPDATE with an elapsed deadline yields
MONITOR. -/
theorem get_current_mode_update_expired (now now0 T : Rat) (s : AuthState)
    (hm : s.current_mode = SystemMode.UPDATE)
    (hst : s.mode_start_time = some now0) (hto : s.mode_timeout = some T)
    (hlate : now - now0 > T) :
    (get_current_mode now s).1 = SystemMode.MONITOR := by
  simp [get_current_mode, is_mode_expired, hm, hst, hto, hlate,
    exit_update_mode_internal, record_mode_change]

/-- A successful enter_update_mode leaves UPDATE mode with the requested
start time and timeout. -/
theorem enter_update_mode_success_state (euid : Nat) (now0 : Rat)
    (token : Nat) (user : String) (T : Rat) (s : AuthState)
    (hok : (enter_update_mode euid now0 token user T s).1.1 = true) :
    (enter_update_mode euid now0 token user T s).2.current_mode =
      SystemMode.UPDATE ∧
    (enter_update_mode euid now0 token user T s).2.mode_start_time =
      some now0 ∧
    (enter_update_mode euid now0 token user T s).2.mode_timeout = some T := by
  unfold enter_update_mode at hok ⊢
  split_ifs at hok ⊢ with h1 h2 h3 h4
  · exact ⟨h3, rfl, rfl⟩
  · exact ⟨rfl, rfl, rfl⟩

/-- C5, counterexample: is_mode_expired compares with strict inequality
(elapsed > timeout), so a mode read at wall time exactly entry + T still
returns UPDATE, although the claim promises Monitor at every read at wall
time at or after entry + T.  Concretely: enter Update at time 0 with
timeout 300 succeeds, and get_current_mode at time 300 reports UPDATE. -/
theorem c5_counterexample :
    (enter_update_mode 0 0 42 "root" 300 initAuthState).1.1 = true ∧
    (get_current_mode 300
      (enter_update_mode 0 0 42 "root" 300 initAuthState).2).1 =
      SystemMode.UPDATE := by
  constructor
  · rfl
  · simp [enter_update_mode, initAuthState, verify_admin,
      generate_session_token, record_mode_change, get_current_mode,
      is_mode_expired]

/-- C5, amended: after Update mode is entered with timeout T at time now0,
every mode read at wall time strictly later than now0 + T returns MONITOR
without any explicit exit call (get_current_mode performs the deadline
check on every read; the boundary instant now0 + T itself still reads
UPDATE). -/
theorem c5_update_deadline_downgrade (euid : Nat) (now0 now : Rat)
    (token : Nat) (user : String) (T : Rat) (s : AuthState)
    (hok : (enter_update_mode euid now0 token user T s).1.1 = true)
    (hlate : now - now0 > T) :
    (get_current_mode now (enter_update_mode euid now0 token user T s).2).1 =
      SystemMode.MONITOR := by
  obtain ⟨hm, hst, hto⟩ :=
    enter_update_mode_success_state euid now0 token user T s hok
  exact get_current_mode_update_expired now now0 T _ hm hst hto hlate

/-- C5 witness: entering Update at time 0 with timeout 300 and reading at
time 301 yields MONITOR. -/
theorem c5_update_deadline_downgrade_witness :
    (get_current_mode 301
      (enter_update_mode 0 0 42 "root" 300 initAuthState).2).1 =
      SystemMode.MONITOR :=
  c5_update_deadline_downgrade 0 0 301 42 "root" 300 initAuthState
    rfl (by norm_num)

/-- C6, counterexample: enter_update_mode never validates the requested
timeout, so a Monitor-to-Update entry with timeout 10 (outside [60, 3600])
succeeds for a verified admin, although the claim promises failure for
every timeout outside [60, 3600]. -/
theorem c6_counterexample :
    (enter_update_mode 0 0 7 "root" 10 initAuthState).1.1 = true ∧
    ¬ ((60 : Rat) ≤ 10 ∧ (10 : Rat) ≤ 3600) := by
  exact ⟨rfl, by norm_num⟩

/-- C6, amended: from MONITOR, enter_update_mode succeeds iff the admin is
verified (effective uid 0 and username in the allowed set); the requested
timeout is not validated at all.  On success it issues a session token
bound to the user with expiry now + timeout and starts the deadline. -/
theorem c6_enter_update_mode (euid : Nat) (now : Rat) (token : Nat)
    (user : String) (timeout : Rat) (s : AuthState)
    (hmon : s.current_mode = SystemMode.MONITOR) :
    ((enter_update_mode euid now token user timeout s).1.1 = true ↔
      verify_admin euid user = true) ∧
    (verify_admin euid user = true →
      (enter_update_mode euid now token user timeout s).1.2 = some token ∧
      (enter_update_mode euid now token user timeout s).2.current_mode =
        SystemMode.UPDATE ∧
      (enter_update_mode euid now token user timeout s).2.mode_start_time =
        some now ∧
      (enter_update_mode euid now token user timeout s).2.mode_timeout =
        some timeout ∧
      (enter_update_mode euid now token user timeout s).2.active_sessions =
        s.active_sessions ++ [{ token := token, user := user, created := now,
                                expires := now + timeout }]) := by
  unfold enter_update_mode
  rw [hmon]
  by_cases hadm : verify_admin euid user = true
  · simp [hadm, generate_session_token, record_mode_change]
  · simp [hadm]

/-- C6 witness: concrete Monitor-to-Update entry by root with timeout 90. -/
theorem c6_enter_update_mode_witness :
    ((enter_update_mode 0 0 5 "root" 90 initAuthState).1.1 = true ↔
      verify_admin 0 "root" = true) ∧
    (verify_admin 0 "root" = true →
      (enter_update_mode 0 0 5 "root" 90 initAuthState).1.2 = some 5 ∧
      (enter_update_mode 0 0 5 "root" 90 initAuthState).2.current_mode =
        SystemMode.UPDATE ∧
      (enter_update_mode 0 0 5 "root" 90 initAuthState).2.mode_start_time =
        some 0 ∧
      (enter_update_mode 0 0 5 "root" 90 initAuthState).2.mode_timeout =
        some 90 ∧
      (enter_update_mode 0 0 5 "root" 90 initAuthState).2.active_sessions =
        initAuthState.active_sessions ++
          [{ token := 5, user := "root", created := 0, expires := 0 + 90 }]) :=
  c6_enter_update_mode 0 0 5 "root" 90 initAuthState rfl

/-- C7, counterexample: enter_emergency_mode is itself a new-mode-entry
call other than the emergency exit, and while the system is already in
Emergency mode it returns success (it merely re-affirms Emergency),
although the claim promises that every such call returns failure. -/
theorem c7_counterexample :
    (enter_emergency_mode 0 "attack" initAuthState).2.current_mode =
      SystemMode.EMERGENCY ∧
    (enter_emergency_mode 1 "again"
      (enter_emergency_mode 0 "attack" initAuthState).2).1 = true := by
  exact ⟨rfl, rfl⟩

/-- C7, amended: once in Emergency mode, entries to Init and Update fail
and leave the mode Emergency, the exit calls of the other modes fail and
leave the mode Emergency, a repeated enter_emergency_mode succeeds but
also leaves the mode Emergency, reading the mode never changes it, an
exit_emergency_mode by an unverified caller fails and leaves the mode
Emergency, and only exit_emergency_mode by a verified admin moves the
system back to Monitor. -/
theorem c7_emergency_trap (euid : Nat) (now : Rat) (token : Nat)
    (user reason : String) (timeout : Rat) (s : AuthState)
    (hem : s.current_mode = SystemMode.EMERGENCY) :
    ((enter_init_mode now user s).1 = false ∧
      (enter_init_mode now user s).2.current_mode = SystemMode.EMERGENCY) ∧
    ((enter_update_mode euid now token user timeout s).1.1 = false ∧
      (enter_update_mode euid now token user timeout s).2.current_mode =
        SystemMode.EMERGENCY) ∧
    ((exit_init_mode now user s).1 = false ∧
      (exit_init_mode now user s).2.current_mode = SystemMode.EMERGENCY) ∧
    ((exit_update_mode now user s).1 = false ∧
      (exit_update_mode now user s).2.current_mode = SystemMode.EMERGENCY) ∧
    ((enter_emergency_mode now reason s).1 = true ∧
      (enter_emergency_mode now reason s).2.current_mode =
        SystemMode.EMERGENCY) ∧
    ((get_current_mode now s).1 = SystemMode.EMERGENCY ∧
      (get_current_mode now s).2 = s) ∧
    (verify_admin euid user = false →
      (exit_emergency_mode euid now user s).1 = false ∧
      (exit_emergency_mode euid now user s).2.current_mode =
        SystemMode.EMERGENCY) ∧
    (verify_admin euid user = true →
      (exit_emergency_mode euid now user s).1 = true ∧
      (exit_emergency_mode euid now user s).2.current_mode =
        SystemMode.MONITOR) := by
  refine ⟨?_, ?_, ?_, ?_, ?_, ?_, ?_, ?_⟩
  · unfold enter_init_mode
    simp [hem]
  · unfold enter_update_mode
    simp [hem]
  · unfold exit_init_mode
    simp [hem]
  · unfold exit_update_mode
    simp [hem]
  · unfold enter_emergency_mode
    simp [hem, record_mode_change]
  · unfold get_current_mode
    simp [hem]
  · intro hadm
    unfold exit_emergency_mode
    simp [hem, hadm]
  · intro hadm
    unfold exit_emergency_mode
    simp [hem, hadm, record_mode_change]

/-- C7 witness: the trap instantiated in a concrete Emergency state reached
from the initial state. -/
theorem c7_emergency_trap_witness :
    ((enter_init_mode 2 "root"
        (enter_emergency_mode 0 "attack" initAuthState).2).1 = false ∧
      (enter_init_mode 2 "root"
        (enter_emergency_mode 0 "attack" initAuthState).2).2.current_mode =
        SystemMode.EMERGENCY) ∧
    ((enter_update_mode 0 2 9 "root" 300
        (enter_emergency_mode 0 "attack" initAuthState).2).1.1 = false ∧
      (enter_update_mode 0 2 9 "root" 300
        (enter_emergency_mode 0 "attack" initAuthState).2).2.current_mode =
        SystemMode.EMERGENCY) ∧
    ((exit_init_mode 2 "root"
        (enter_emergency_mode 0 "attack" initAuthState).2).1 = false ∧
      (exit_init_mode 2 "root"
        (enter_emergency_mode 0 "attack" initAuthState).2).2.current_mode =
        SystemMode.EMERGENCY) ∧
    ((exit_update_mode 2 "root"
        (enter_emergency_mode 0 "attack" initAuthState).2).1 = false ∧
      (exit_update_mode 2 "root"
        (enter_emergency_mode 0 "attack" initAuthState).2).2.current_mode =
        SystemMode.EMERGENCY) ∧
    ((enter_emergency_mode 2 "again"
        (enter_emergency_mode 0 "attack" initAuthState).2).1 = true ∧
      (enter_emergency_mode 2 "again"
        (enter_emergency_mode 0 "attack" initAuthState).2).2.current_mode =
        SystemMode.EMERGENCY) ∧
    ((get_current_mode 2
        (enter_emergency_mode 0 "attack" initAuthState).2).1 =
        SystemMode.EMERGENCY ∧
      (get_current_mode 2
        (enter_emergency_mode 0 "attack" initAuthState).2).2 =
        (enter_emergency_mode 0 "attack" initAuthState).2) ∧
    (verify_admin 0 "root" = false →
      (exit_emergency_mode 0 2 "root"
        (enter_emergency_mode 0 "attack" initAuthState).2).1 = false ∧
      (exit_emergency_mode 0 2 "root"
        (enter_emergency_mode 0 "attack" initAuthState).2).2.current_mode =
        SystemMode.EMERGENCY) ∧
    (verify_admin 0 "root" = true →
      (exit_emergency_mode 0 2 "root"
        (enter_emergency_mode 0 "attack" initAuthState).2).1 = true ∧
      (exit_emergency_mode 0 2 "root"
        (enter_emergency_mode 0 "attack" initAuthState).2).2.current_mode =
        SystemMode.MONITOR) :=
  c7_emergency_trap 0 2 9 "root" "again" 300
    (enter_emergency_mode 0 "attack" initAuthState).2 rfl

/- ===================== theorems: baseline store ===================== -/

/-- When no element of the first list satisfies the search, find? over an
append searches the second list. -/
theorem find?_append_of_none {α : Type} (p : α → Bool) (l1 l2 : List α)
    (h : l1.find? p = none) : (l1 ++ l2).find? p = l2.find? p := by
  induction l1 with
  | nil => rfl
  | cons a t ih =>
    by_cases ha : p a = true
    · rw [List.find?_cons_of_pos _ ha] at h
      exact absurd h (by simp)
    · rw [List.find?_cons_of_neg _ (by simpa using ha)] at h
      rw [List.cons_append, List.find?_cons_of_neg _ (by simpa using ha)]
      exact ih h

/-- Rows whose path was filtered away are never found by path. -/
theorem find?_filter_path_ne (path : String) (l : List FileRow) :
    (l.filter (fun r => r.file_path != path)).find?
      (fun r => r.file_path == path) = none := by
  rw [List.find?_eq_none]
  intro x hx
  have := (List.mem_filter.mp hx).2
  simpa using this

/-- Mapping an id-conditional replacement over a list keeps the first
path-match at the replacement row, provided the replacement keeps the
path of the row being replaced. -/
theorem find?_map_ite_update (path : String) (row row2 : FileRow)
    (hpath : row2.file_path = row.file_path) :
    ∀ l : List FileRow, l.find? (fun r => r.file_path == path) = some row →
      (l.map (fun r => if r.id == row.id then row2 else r)).find?
        (fun r => r.file_path == path) = some row2 := by
  intro l
  induction l with
  | nil => simp
  | cons a t ih =>
    intro h
    have hrow := List.find?_some h
    simp only [] at hrow
    simp only [List.find?_cons] at h
    simp only [List.map_cons, List.find?_cons]
    by_cases ha : (a.file_path == path) = true
    · simp only [ha] at h
      have haeq : a = row := by injection h
      subst haeq
      simp [hpath, hrow]
    · simp only [Bool.of_not_eq_true ha] at h
      by_cases hid : (a.id == row.id) = true
      · simp [hid, hpath, hrow]
      · simp only [hid, if_neg, Bool.false_eq_true, ite_false,
          Bool.of_not_eq_true ha]
        exact ih h

/-- C4: the files schema declares ON DELETE CASCADE for block_hashes, and
the spec promises that remove cascades, but the connection never enables
PRAGMA foreign_keys, which sqlite leaves off by default; so after
remove_file returns true the block-hash rows of the removed file survive
as orphans.  Failing input: a store holding one file with one block hash;
remove_file returns true, deletes the files row, and leaves the block
row. -/
theorem c4_remove_file_orphan_blocks :
    (remove_file "/etc/passwd"
      (add_file 0 "/etc/passwd" 5 65536 [111] none emptyDB).2).1 = true ∧
    (remove_file "/etc/passwd"
      (add_file 0 "/etc/passwd" 5 65536 [111] none emptyDB).2).2.files = [] ∧
    (remove_file "/etc/passwd"
      (add_file 0 "/etc/passwd" 5 65536 [111] none emptyDB).2).2.blocks =
      [{ file_id := 1, block_index := 0, hash_value := 111 }] := by
  exact ⟨rfl, rfl, rfl⟩

/-- C10: add_file on a path that already has a record replaces the whole
row, resetting is_trusted to true and created_at to the current time,
while update_file keeps created_at and is_trusted of the existing row and
only refreshes size, hash count, updated_at and backup path. -/
theorem c10_add_file_resets (now1 now2 : Rat) (path : String)
    (sz1 bs1 sz2 : Nat) (hs1 hs2 : List Nat) (bp1 bp2 : Option String)
    (db : HashDB) (r : FileRow)
    (hf : find_file db path = some r) :
    (find_file (add_file now1 path sz1 bs1 hs1 bp1 db).2 path =
      some { id := db.next_file_id, file_path := path, file_size := sz1,
             block_size := bs1, blocks_count := hs1.length,
             created_at := now1, updated_at := now1, is_trusted := true,
             backup_path := bp1 }) ∧
    (find_file (update_file now2 path sz2 hs2 bp2 db).2 path =
      some { r with file_size := sz2, blocks_count := hs2.length,
                    updated_at := now2, backup_path := bp2 }) := by
  constructor
  · unfold add_file find_file
    simp only []
    rw [find?_append_of_none _ _ _ (find?_filter_path_ne path db.files)]
    exact List.find?_cons_of_pos _ (by simp)
  · have h2 := find?_map_ite_update path r
      { r with file_size := sz2, blocks_count := hs2.length,
               updated_at := now2, backup_path := bp2 } rfl db.files hf
    have hf2 := hf
    unfold find_file at hf2
    simp only [update_file, find_file, hf2]
    exact h2

/-- C10 witness: a store holding an untrusted record for a path; add_file
resets the record, update_file preserves creation time and trust. -/
theorem c10_add_file_resets_witness :
    (find_file (add_file 7 "/a" 2 4 [9, 9] none
        (set_trust_status "/a" false
          (add_file 0 "/a" 1 4 [5] none emptyDB).2).2).2 "/a" =
      some { id := (set_trust_status "/a" false
          (add_file 0 "/a" 1 4 [5] none emptyDB).2).2.next_file_id,
             file_path := "/a", file_size := 2, block_size := 4,
             blocks_count := [9, 9].length, created_at := 7,
             updated_at := 7, is_trusted := true, backup_path := none }) ∧
    (find_file (update_file 8 "/a" 3 [4] none
        (set_trust_status "/a" false
          (add_file 0 "/a" 1 4 [5] none emptyDB).2).2).2 "/a" =
      some { id := 1, file_path := "/a", file_size := 3, block_size := 4,
             blocks_count := [4].length, created_at := 0, updated_at := 8,
             is_trusted := false, backup_path := none }) :=
  c10_add_file_resets 7 8 "/a" 2 4 3 [9, 9] [4] none none
    (set_trust_status "/a" false (add_file 0 "/a" 1 4 [5] none emptyDB).2).2
    { id := 1, file_path := "/a", file_size := 1, block_size := 4,
      blocks_count := 1, created_at := 0, updated_at := 0,
      is_trusted := false, backup_path := none } rfl

/- ===================== theorems: recovery engine ===================== -/

/-- Length after writeAt: the file grows exactly as far as the write
reaches. -/
theorem writeAt_length (f : List Byte) (off : Nat) (data : List Byte) :
    (writeAt f off data).length = max (off + data.length) f.length := by
  simp [writeAt]
  omega

/-- The zero padding prefix of writeAt has length exactly off. -/
theorem writeAt_pad_length (f : List Byte) (off : Nat) :
    (f.take off ++ List.replicate (off - f.length) (0 : Byte)).length = off := by
  simp
  omega

/-- writeAt keeps existing bytes strictly below the write offset. -/
theorem writeAt_getElem?_lt (f : List Byte) (off : Nat) (data : List Byte)
    (p : Nat) (h1 : p < off) (h2 : p < f.length) :
    (writeAt f off data)[p]? = f[p]? := by
  unfold writeAt
  rw [List.getElem?_append_left (by simp; omega),
    List.getElem?_append_left (by simp; omega),
    List.getElem?_append_left (by simp; omega),
    List.getElem?_take_of_lt h1]

/-- writeAt places the data bytes at the write offset. -/
theorem writeAt_getElem?_mid (f : List Byte) (off : Nat) (data : List Byte)
    (p : Nat) (h1 : off ≤ p) (h2 : p < off + data.length) :
    (writeAt f off data)[p]? = data[p - off]? := by
  have hA := writeAt_pad_length f off
  unfold writeAt
  rw [List.getElem?_append_left (by simp only [List.length_append, hA]; omega),
    List.getElem?_append_right (by rw [hA]; exact h1), hA]

/-- writeAt keeps bytes at and beyond the end of the written range. -/
theorem writeAt_getElem?_ge (f : List Byte) (off : Nat) (data : List Byte)
    (p : Nat) (h1 : off + data.length ≤ p) :
    (writeAt f off data)[p]? = f[p]? := by
  have hA := writeAt_pad_length f off
  unfold writeAt
  rw [List.getElem?_append_right (by simp only [List.length_append, hA]; omega),
    List.getElem?_drop]
  congr 1
  simp only [List.length_append, hA]
  omega

/-- truncateTo always produces length n. -/
theorem truncateTo_length (f : List Byte) (n : Nat) :
    (truncateTo f n).length = n := by
  simp [truncateTo]
  omega

/-- truncateTo keeps bytes that lie below both the cut and the file end. -/
theorem truncateTo_getElem?_lt (f : List Byte) (n p : Nat) (h1 : p < n)
    (h2 : p < f.length) : (truncateTo f n)[p]? = f[p]? := by
  unfold truncateTo
  rw [List.getElem?_append_left (by simp; omega),
    List.getElem?_take_of_lt h1]

/-- One restore step preserves every target byte that already agrees with
the backup: the step either rewrites it with the very same backup byte or
leaves it alone. -/
theorem restore_step_pres (bs : Nat) (b : List Byte) (s : List Byte × Nat)
    (i p : Nat) (h1 : p < s.1.length) (h2 : s.1[p]? = b[p]?) :
    p < (restore_block_step bs b s i).1.length ∧
    (restore_block_step bs b s i).1[p]? = b[p]? := by
  unfold restore_block_step
  by_cases hd : ((b.drop (i * bs)).take bs).isEmpty
  · simp only [hd, if_pos]
    exact ⟨h1, h2⟩
  · simp only [hd, Bool.false_eq_true, if_neg, not_false_eq_true]
    have hdl : ((b.drop (i * bs)).take bs).length = min bs (b.length - i * bs) := by
      simp
    constructor
    · rw [writeAt_length]
      omega
    · rcases lt_or_ge p (i * bs) with hp | hp
      · rw [writeAt_getElem?_lt _ _ _ _ hp h1]
        exact h2
      · rcases lt_or_ge p (i * bs + ((b.drop (i * bs)).take bs).length)
          with hp2 | hp2
        · rw [writeAt_getElem?_mid _ _ _ _ hp hp2,
            List.getElem?_take_of_lt (by omega), List.getElem?_drop]
          congr 1
          omega
        · rw [writeAt_getElem?_ge _ _ _ _ hp2]
          exact h2

/-- Folding restore steps over any index list preserves every target byte
that already agrees with the backup. -/
theorem restore_foldl_pres (bs : Nat) (b : List Byte) :
    ∀ (l : List Nat) (s : List Byte × Nat) (p : Nat),
      p < s.1.length → s.1[p]? = b[p]? →
      p < ((l.foldl (restore_block_step bs b) s).1).length ∧
      ((l.foldl (restore_block_step bs b) s).1)[p]? = b[p]? := by
  intro l
  induction l with
  | nil => intro s p h1 h2; exact ⟨h1, h2⟩
  | cons i t ih =>
    intro s p h1 h2
    rw [List.foldl_cons]
    obtain ⟨h3, h4⟩ := restore_step_pres bs b s i p h1 h2
    exact ih _ p h3 h4

/-- One restore step copies the backup bytes of its own block: afterwards
every position of block i that lies inside the backup agrees with the
backup. -/
theorem restore_step_covers (bs : Nat) (b : List Byte) (s : List Byte × Nat)
    (i p : Nat) (hp1 : i * bs ≤ p) (hp2 : p < (i + 1) * bs)
    (hpb : p < b.length) :
    p < (restore_block_step bs b s i).1.length ∧
    (restore_block_step bs b s i).1[p]? = b[p]? := by
  have hmul : (i + 1) * bs = i * bs + bs := by ring
  rw [hmul] at hp2
  have hdl : ((b.drop (i * bs)).take bs).length = min bs (b.length - i * bs) := by
    simp
  have hd : ((b.drop (i * bs)).take bs).isEmpty = false := by
    rw [List.isEmpty_eq_false_iff_exists_mem]
    have : 0 < ((b.drop (i * bs)).take bs).length := by omega
    exact ⟨_, List.getElem_mem this⟩
  unfold restore_block_step
  simp only [hd, Bool.false_eq_true, if_neg, not_false_eq_true]
  constructor
  · rw [writeAt_length]
    omega
  · rw [writeAt_getElem?_mid _ _ _ _ hp1 (by omega),
      List.getElem?_take_of_lt (by omega), List.getElem?_drop]
    congr 1
    omega

/-- Folding restore steps over an index list copies the backup bytes of
every listed block, at every position inside the backup. -/
theorem restore_foldl_covers (bs : Nat) (b : List Byte) :
    ∀ (l : List Nat) (s : List Byte × Nat) (i : Nat), i ∈ l →
      ∀ p : Nat, i * bs ≤ p → p < (i + 1) * bs → p < b.length →
      p < ((l.foldl (restore_block_step bs b) s).1).length ∧
      ((l.foldl (restore_block_step bs b) s).1)[p]? = b[p]? := by
  intro l
  induction l with
  | nil => intro s i hmem; cases hmem
  | cons j t ih =>
    intro s i hmem p hp1 hp2 hpb
    rw [List.foldl_cons]
    rcases List.mem_cons.mp hmem with hij | hit
    · subst hij
      obtain ⟨h3, h4⟩ := restore_step_covers bs b s i p hp1 hp2 hpb
      exact restore_foldl_pres bs b t _ p h3 h4
    · exact ih _ i hit p hp1 hp2 hpb

/-- C3: restore_blocks with an existing backup always succeeds and yields
a target whose length equals the backup length and whose bytes, at every
position of every requested block index, equal the backup bytes at the
same offsets; when the target file does not exist it degrades to a full
restore, the result being exactly the backup content. -/
theorem c3_restore_blocks (bs : Nat) (target : Option (List Byte))
    (b : List Byte) (ixs : List Nat) :
    ∃ out, (restore_blocks bs target (some b) ixs).2 = some out ∧
      (restore_blocks bs target (some b) ixs).1.1 = true ∧
      out.length = b.length ∧
      (∀ i ∈ ixs, ∀ p : Nat, i * bs ≤ p → p < (i + 1) * bs →
        out[p]? = b[p]?) ∧
      (target = none → out = b) := by
  cases target with
  | none =>
    exact ⟨b, rfl, rfl, rfl, fun i _ p _ _ => rfl, fun _ => rfl⟩
  | some t =>
    refine ⟨truncateTo
      (((ixs.mergeSort (fun a c => decide (a ≤ c))).foldl
        (restore_block_step bs b) (t, 0)).1) b.length, rfl, rfl,
      truncateTo_length _ _, ?_, by intro h; cases h⟩
    intro i hmem p hp1 hp2
    rcases lt_or_ge p b.length with hpb | hpb
    · have hmem2 : i ∈ ixs.mergeSort (fun a c => decide (a ≤ c)) :=
        (List.mem_mergeSort).mpr hmem
      obtain ⟨h3, h4⟩ := restore_foldl_covers bs b _ (t, 0) i hmem2 p hp1 hp2 hpb
      rw [truncateTo_getElem?_lt _ _ _ hpb h3]
      exact h4
    · rw [List.getElem?_len_le (by rw [truncateTo_length]; exact hpb),
        List.getElem?_len_le hpb]

/-- C3 witness: a concrete per-block restore with block size 1, a two-byte
backup and one requested block. -/
theorem c3_restore_blocks_witness :
    ∃ out, (restore_blocks 1 (some [3]) (some [7, 8]) [0]).2 = some out ∧
      (restore_blocks 1 (some [3]) (some [7, 8]) [0]).1.1 = true ∧
      out.length = ([7, 8] : List Byte).length ∧
      (∀ i ∈ [0], ∀ p : Nat, i * 1 ≤ p → p < (i + 1) * 1 →
        out[p]? = ([7, 8] : List Byte)[p]?) ∧
      (some ([3] : List Byte) = none → out = [7, 8]) :=
  c3_restore_blocks 1 (some [3]) [7, 8] [0]

/- ===================== theorems: integrity engine ===================== -/

/-- The python summand -p * log2 p rewritten through negMulLog. -/
theorem neg_mul_logb_two (x : Real) :
    -(x * Real.logb 2 x) = Real.negMulLog x / Real.log 2 := by
  unfold Real.logb Real.negMulLog
  ring

/-- The byte counts of a list sum to its length. -/
theorem sum_counts_real (data : List Byte) :
    ∑ b : Byte, ((data.count b : Real)) = (data.length : Real) := by
  have h1 : ∑ b : Byte, (data : Multiset Byte).count b =
      Multiset.card (data : Multiset Byte) :=
    Multiset.sum_count_eq_card (fun a _ => Finset.mem_univ a)
  simp only [Multiset.coe_count, Multiset.coe_card] at h1
  rw [← h1]
  push_cast
  rfl

set_option maxRecDepth 40000

/-- Gibbs bound via Jensen: the summed negMulLog of a 256-point
probability vector is at most log 256. -/
theorem negMulLog_sum_le (data : List Byte)
    (hsum1 : ∑ b : Byte, ((data.count b : Real) / (data.length : Real)) = 1) :
    ∑ b : Byte, Real.negMulLog ((data.count b : Real) / (data.length : Real)) ≤
      Real.log 256 := by
  have hj : ∑ b : Byte, ((256 : Real)⁻¹) •
        Real.negMulLog ((data.count b : Real) / (data.length : Real)) ≤
      Real.negMulLog (∑ b : Byte, ((256 : Real)⁻¹) •
        ((data.count b : Real) / (data.length : Real))) := by
    refine Real.concaveOn_negMulLog.le_map_sum (fun _ _ => by norm_num) ?_
      (fun b _ => Set.mem_Ici.mpr (by positivity))
    simp [Finset.sum_const, Finset.card_univ]
  have hrhs : (∑ b : Byte, ((256 : Real)⁻¹) •
      ((data.count b : Real) / (data.length : Real))) = (256 : Real)⁻¹ := by
    simp only [smul_eq_mul, ← Finset.mul_sum, hsum1, mul_one]
  rw [hrhs] at hj
  have hneg : Real.negMulLog ((256 : Real)⁻¹) = (256 : Real)⁻¹ * Real.log 256 := by
    unfold Real.negMulLog
    rw [Real.log_inv]
    ring
  rw [hneg] at hj
  simp only [smul_eq_mul, ← Finset.mul_sum] at hj
  exact (mul_le_mul_left (show (0:Real) < (256:Real)⁻¹ by norm_num)).mp hj

/-- The Shannon sum over the byte frequencies of a nonempty sample lies in
[0, 8]. -/
theorem entropy_sum_bounds (data : List Byte) (hd : data.length ≠ 0) :
    0 ≤ (∑ b : Byte,
      -(((data.count b : Real) / (data.length : Real)) *
        Real.logb 2 ((data.count b : Real) / (data.length : Real)))) ∧
    (∑ b : Byte,
      -(((data.count b : Real) / (data.length : Real)) *
        Real.logb 2 ((data.count b : Real) / (data.length : Real)))) ≤ 8 := by
  have hn : (0 : Real) < (data.length : Real) := by
    exact_mod_cast Nat.pos_of_ne_zero hd
  have hp0 : ∀ b : Byte, 0 ≤ (data.count b : Real) / (data.length : Real) :=
    fun b => by positivity
  have hp1 : ∀ b : Byte, (data.count b : Real) / (data.length : Real) ≤ 1 := by
    intro b
    rw [div_le_one hn]
    exact_mod_cast List.count_le_length b data
  have hlog2 : (0 : Real) < Real.log 2 := Real.log_pos (by norm_num)
  have hrw : (∑ b : Byte,
      -(((data.count b : Real) / (data.length : Real)) *
        Real.logb 2 ((data.count b : Real) / (data.length : Real)))) =
      (∑ b : Byte,
        Real.negMulLog ((data.count b : Real) / (data.length : Real))) /
        Real.log 2 := by
    rw [Finset.sum_div]
    exact Finset.sum_congr rfl (fun b _ => neg_mul_logb_two _)
  constructor
  · rw [hrw]
    apply div_nonneg _ (le_of_lt hlog2)
    apply Finset.sum_nonneg
    exact fun b _ => Real.negMulLog_nonneg (hp0 b) (hp1 b)
  · rw [hrw]
    have hsum1 : ∑ b : Byte,
        ((data.count b : Real) / (data.length : Real)) = 1 := by
      rw [← Finset.sum_div, sum_counts_real, div_self (ne_of_gt hn)]
    have hle := negMulLog_sum_le data hsum1
    have h256 : Real.log 256 = 8 * Real.log 2 := by
      rw [show (256 : Real) = 2 ^ (8 : Nat) by norm_num, Real.log_pow]
      push_cast
      ring
    rw [div_le_iff₀ hlog2]
    rw [h256] at hle
    linarith

/-- C8: the entropy computation always returns a value in [0, 8] (Shannon
entropy, base 2, over the byte frequencies of up to the first 1 MiB), and
an empty or unreadable file yields exactly 0. -/
theorem c8_entropy_bounds (content : Option (List Byte)) :
    (0 ≤ calculate_entropy content ∧ calculate_entropy content ≤ 8) ∧
    calculate_entropy none = 0 ∧
    calculate_entropy (some ([] : List Byte)) = 0 := by
  refine ⟨?_, rfl, rfl⟩
  cases content with
  | none => simp [calculate_entropy]
  | some l =>
    simp only [calculate_entropy]
    by_cases hd : (l.take 1048576).length = 0
    · simp [hd]
    · simp only [hd, if_neg, not_false_eq_true]
      exact entropy_sum_bounds (l.take 1048576) hd

/-- The classification never returns NO_CHANGE or ALLOWED_CHANGE. -/
theorem classify_change_ne (th : Thresholds) (cp e : Real) :
    classify_change th cp e ≠ ChangeType.NO_CHANGE ∧
    classify_change th cp e ≠ ChangeType.ALLOWED_CHANGE := by
  unfold classify_change
  split_ifs <;> simp

/-- Exact case analysis of classify_change: CRITICAL when both thresholds
are met, SUSPICIOUS when exactly one is met, UNAUTHORIZED when neither. -/
theorem classify_change_spec (th : Thresholds) (cp e : Real) :
    (classify_change th cp e = ChangeType.CRITICAL_CHANGE ↔
      (cp ≥ th.block_change_percent ∧ e ≥ th.entropy_threshold)) ∧
    (classify_change th cp e = ChangeType.SUSPICIOUS_CHANGE ↔
      ((cp ≥ th.block_change_percent ∨ e ≥ th.entropy_threshold) ∧
       ¬ (cp ≥ th.block_change_percent ∧ e ≥ th.entropy_threshold))) ∧
    (classify_change th cp e = ChangeType.UNAUTHORIZED_CHANGE ↔
      (¬ cp ≥ th.block_change_percent ∧ ¬ e ≥ th.entropy_threshold)) := by
  unfold classify_change
  split_ifs with hc hs
  · simp [hc]
  · exact ⟨by simp [hc], iff_of_true rfl ⟨hs, hc⟩,
      iff_of_false (by simp) (fun hn => hs.elim hn.1 hn.2)⟩
  · have hno := not_or.mp hs
    exact ⟨by simp [hc], by simp [hs], by simp [hno.1, hno.2]⟩

/-- C1, counterexample: a check of a missing file (the FileNotFoundError
branch) returns CRITICAL_CHANGE with zero changed blocks, refuting the
claimed equivalence between NoChange and zero blocks changed. -/
theorem c1_counterexample :
    (check_integrity (fun _ => 0) 1 defaultThresholds "p" 0 none [1] false
      []).1.blocks_changed = 0 ∧
    (check_integrity (fun _ => 0) 1 defaultThresholds "p" 0 none [1] false
      []).1.change_type ≠ ChangeType.NO_CHANGE := by
  exact ⟨rfl, by simp [check_integrity]⟩

/-- C1, amended: for every integrity check of an existing readable file,
the classification satisfies the claimed case analysis: NoChange iff zero
blocks changed; AllowedChange when blocks changed in Update mode;
otherwise CriticalChange iff both thresholds are met, SuspiciousChange iff
exactly one is met, UnauthorizedChange iff neither is met.  A check of a
missing file instead returns CriticalChange with zero blocks changed. -/
theorem c1_classification (hashB : List Byte → Nat) (bs : Nat)
    (th : Thresholds) (path : String) (now : Rat) (c : List Byte)
    (reference : List Nat) (upd : Bool) (hist : List ModificationEvent) :
    ((check_integrity hashB bs th path now (some c) reference upd
        hist).1.change_type = ChangeType.NO_CHANGE ↔
      (check_integrity hashB bs th path now (some c) reference upd
        hist).1.blocks_changed = 0) ∧
    ((check_integrity hashB bs th path now (some c) reference upd
        hist).1.blocks_changed ≠ 0 → upd = true →
      (check_integrity hashB bs th path now (some c) reference upd
        hist).1.change_type = ChangeType.ALLOWED_CHANGE) ∧
    ((check_integrity hashB bs th path now (some c) reference upd
        hist).1.blocks_changed ≠ 0 → upd = false →
      (((check_integrity hashB bs th path now (some c) reference upd
          hist).1.change_type = ChangeType.CRITICAL_CHANGE ↔
        ((check_integrity hashB bs th path now (some c) reference upd
            hist).1.change_percent ≥ th.block_change_percent ∧
         (check_integrity hashB bs th path now (some c) reference upd
            hist).1.entropy ≥ th.entropy_threshold)) ∧
       ((check_integrity hashB bs th path now (some c) reference upd
          hist).1.change_type = ChangeType.SUSPICIOUS_CHANGE ↔
        (((check_integrity hashB bs th path now (some c) reference upd
            hist).1.change_percent ≥ th.block_change_percent ∨
          (check_integrity hashB bs th path now (some c) reference upd
            hist).1.entropy ≥ th.entropy_threshold) ∧
         ¬ ((check_integrity hashB bs th path now (some c) reference upd
            hist).1.change_percent ≥ th.block_change_percent ∧
           (check_integrity hashB bs th path now (some c) reference upd
            hist).1.entropy ≥ th.entropy_threshold))) ∧
       ((check_integrity hashB bs th path now (some c) reference upd
          hist).1.change_type = ChangeType.UNAUTHORIZED_CHANGE ↔
        (¬ (check_integrity hashB bs th path now (some c) reference upd
            hist).1.change_percent ≥ th.block_change_percent ∧
         ¬ (check_integrity hashB bs th path now (some c) reference upd
            hist).1.entropy ≥ th.entropy_threshold)))) := by
  simp only [check_integrity]
  split_ifs with h1 h2
  · simp
  · exact ⟨by simp [h1], fun _ _ => rfl, by simp [h2]⟩
  · exact ⟨by simp [h1, (classify_change_ne th _ _).1],
      fun _ hupd => absurd hupd h2,
      fun _ _ => ⟨(classify_change_spec th _ _).1,
        (classify_change_spec th _ _).2.1,
        (classify_change_spec th _ _).2.2⟩⟩

/-- C9: when check_integrity finds zero changed blocks or runs with the
Update-mode flag, the result carries entropy 0 and the modification
history is left untouched; only a changed file checked outside Update mode
computes the entropy and appends a modification event; a check of a
missing file also leaves the history untouched. -/
theorem c9_frame_effects (hashB : List Byte → Nat) (bs : Nat)
    (th : Thresholds) (path : String) (now : Rat) (c : List Byte)
    (reference : List Nat) (upd : Bool) (hist : List ModificationEvent) :
    (((compare_hashes (compute_file_hashes hashB bs c).1
        reference).1.length = 0 ∨ upd = true) →
      ((check_integrity hashB bs th path now (some c) reference upd
          hist).1.entropy = 0 ∧
       (check_integrity hashB bs th path now (some c) reference upd
          hist).2 = hist)) ∧
    ((compare_hashes (compute_file_hashes hashB bs c).1
        reference).1.length ≠ 0 → upd = false →
      ((check_integrity hashB bs th path now (some c) reference upd
          hist).1.entropy = calculate_entropy (some c) ∧
       (check_integrity hashB bs th path now (some c) reference upd
          hist).2 = pushEvent hist
        { file_path := path, timestamp := now,
          blocks_changed := (compare_hashes
            (compute_file_hashes hashB bs c).1 reference).1.length,
          blocks_total := (compute_file_hashes hashB bs c).1.length,
          change_percent := (compare_hashes
            (compute_file_hashes hashB bs c).1 reference).2,
          entropy := calculate_entropy (some c) })) ∧
    (check_integrity hashB bs th path now none reference upd hist).2 =
      hist := by
  refine ⟨?_, ?_, rfl⟩
  · intro h
    simp only [check_integrity]
    by_cases h1 : (compare_hashes (compute_file_hashes hashB bs c).1
        reference).1.length = 0
    · rw [if_pos h1]
      exact ⟨rfl, rfl⟩
    · have h2 : upd = true := h.resolve_left h1
      rw [if_neg h1, if_pos h2]
      exact ⟨rfl, rfl⟩
  · intro h1 hupd
    simp only [check_integrity]
    rw [if_neg h1, if_neg (by simp [hupd])]
    exact ⟨rfl, rfl⟩

/-- C2: the ransomware detector reports positive iff all three hold over
the events inside the window: the count reaches the files_count threshold,
the mean change percentage reaches the block-change threshold, and the
events meeting both thresholds individually number at least 0.7 times the
count.  The hypothesis 0 < files_count matches the configured thresholds;
for files_count = 0 and an empty window the python code raises
ZeroDivisionError instead of returning a verdict. -/
theorem c2_detect_ransomware (th : Thresholds)
    (hist : List ModificationEvent) (now : Rat) (tw : Option Rat)
    (hfc : 0 < th.files_count) :
    (detect_ransomware_pattern th hist now tw = true ↔
      (th.files_count ≤ (hist.filter (fun e =>
          e.timestamp ≥ now - tw.getD th.time_window)).length ∧
       ((hist.filter (fun e => e.timestamp ≥ now - tw.getD th.time_window)).map
          ModificationEvent.change_percent).sum /
         (((hist.filter (fun e =>
            e.timestamp ≥ now - tw.getD th.time_window)).length : Real)) ≥
         th.block_change_percent ∧
       ((((hist.filter (fun e =>
            e.timestamp ≥ now - tw.getD th.time_window)).filter (fun e =>
              e.change_percent ≥ th.block_change_percent ∧
              e.entropy ≥ th.entropy_threshold)).length : Real)) ≥
         0.7 * (((hist.filter (fun e =>
            e.timestamp ≥ now - tw.getD th.time_window)).length : Real)))) := by
  unfold detect_ransomware_pattern
  by_cases hlen : (hist.filter (fun e =>
      e.timestamp ≥ now - tw.getD th.time_window)).length < th.files_count
  · rw [if_pos hlen]
    simp only [Bool.false_eq_true, false_iff]
    rintro ⟨hle, -, -⟩
    omega
  · rw [if_neg hlen]
    simp only [Bool.and_eq_true, decide_eq_true_eq]
    constructor
    · rintro ⟨⟨ha, hb⟩, hc⟩
      exact ⟨ha, hb, by linarith⟩
    · rintro ⟨ha, hb, hc⟩
      exact ⟨⟨ha, hb⟩, by linarith⟩

/-- C2 witness: one event with full change and maximal entropy against a
files_count threshold of 1 inside the window. -/
theorem c2_detect_ransomware_witness :
    (detect_ransomware_pattern sample_thresholds [sample_event] 0 none =
        true ↔
      (sample_thresholds.files_count ≤
        (([sample_event]).filter (fun e =>
          e.timestamp ≥ 0 - (none : Option Rat).getD
            sample_thresholds.time_window)).length ∧
       ((([sample_event]).filter (fun e =>
          e.timestamp ≥ 0 - (none : Option Rat).getD
            sample_thresholds.time_window)).map
          ModificationEvent.change_percent).sum /
         (((([sample_event]).filter (fun e =>
            e.timestamp ≥ 0 - (none : Option Rat).getD
              sample_thresholds.time_window)).length : Real)) ≥
         sample_thresholds.block_change_percent ∧
       ((((([sample_event]).filter (fun e =>
            e.timestamp ≥ 0 - (none : Option Rat).getD
              sample_thresholds.time_window)).filter (fun e =>
              e.change_percent ≥ sample_thresholds.block_change_percent ∧
              e.entropy ≥ sample_thresholds.entropy_threshold)).length :
           Real)) ≥
         0.7 * (((([sample_event]).filter (fun e =>
            e.timestamp ≥ 0 - (none : Option Rat).getD
              sample_thresholds.time_window)).length : Real)))) :=
  c2_detect_ransomware sample_thresholds [sample_event] 0 none (by decide)

end SecureFsGuard
